import Mathlib

/-!
# Verification of the go-ovn connection-lifecycle and schema-negotiation core

Shallow embedding of `client.go` of the go-ovn library: schema negotiation
(`filterTablesFromSchema`, `MonitorTables`), the connect / new-client / close
lifecycle (`connect`, `NewClient`, `Close`), the reconnect loop (`reconnect`),
and the transaction-executor entry points (`Execute` / `ExecuteR`).

Go maps (`c.tableCols`, the monitor request set) are embedded as association
lists; Go map iteration order is unspecified, so each such list is one
linearization of the map and all properties proved about it are
order-insensitive where the code is.  Errors built with `fmt.Errorf` at
distinct program points are embedded as distinct constructors of `OvnError`.
The RPC transport (`libovsdb`) is a boundary collaborator and is embedded as
outcome oracles passed to the lifecycle functions.
-/

set_option autoImplicit false

/-- `libovsdb.MonitorSelect`: which change classes a monitor request selects. -/
structure MonitorSelect where
  initial : Bool
  insert : Bool
  delete : Bool
  modify : Bool
  deriving Repr, DecidableEq

/-- `libovsdb.MonitorRequest`: the per-table subscription request
(`Columns` plus the `Select` change classes). -/
structure MonitorRequest where
  columns : List String
  select : MonitorSelect
  deriving Repr, DecidableEq

/-- The caller's table/column restriction map `c.tableCols : map[string][]string`,
embedded as an association list (one linearization of the Go map). -/
abbrev TableCols := List (String × List String)

/-- Errors produced by the embedded lifecycle code.  Each constructor stands for
one `fmt.Errorf`/transport error site in `client.go`:
* `columnsNotSupported` — "providing specific columns is not supported yet";
* `tableNotSupported t db` — "specified table %q in database %q not supported by the library";
* `invalidDbName db` — "Valid db names are: %s and %s" in `NewClient`;
* `transportFailed` — `libovsdb.Connect` returned an error;
* `monitorFailed` — the `c.client.Monitor` RPC returned an error. -/
inductive OvnError where
  | transportFailed (msg : String)
  | columnsNotSupported
  | tableNotSupported (table : String) (db : String)
  | monitorFailed (msg : String)
  | invalidDbName (db : String)
  deriving Repr, DecidableEq

/-- Configuration errors in the sense of the error taxonomy: those raised by
validation (negotiation / `NewClient`) rather than by the transport. -/
def OvnError.isConfigError : OvnError → Bool
  | .columnsNotSupported => true
  | .tableNotSupported _ _ => true
  | .invalidDbName _ => true
  | _ => false

/-- Modelled from the spec: the constants `DBNB`/`DBSB` are declared outside the
provided sources; the comment in `NewClient` ("db string should strictly be
OVN_Northbound or OVN_Southbound") and the spec's two fixed database identities
fix their values. -/
def DBNB : String := "OVN_Northbound"

/-- Modelled from the spec: see `DBNB`. -/
def DBSB : String := "OVN_Southbound"

/-- `filterTablesFromSchema` (client.go 372–390): pick the canonical ordered
table list for the database identity (`NBTablesOrder` / `SBTablesOrder`, passed
here as parameters since they are declared outside the provided sources) and
keep, in order, exactly the tables present in the fetched schema.  The schema
is embedded as the list of its table names, since only the membership test
`dbSchema.Tables[table]` is used. -/
def filterTablesFromSchema (db : String) (nbOrder sbOrder schema : List String) :
    List String :=
  (if db = DBNB then nbOrder else sbOrder).filter (fun t => decide (t ∈ schema))

/-- The monitor-request building loop of `MonitorTables` (client.go 419–429):
each table of `c.tableCols` gets a request with its column list and
`Initial=Insert=Delete=Modify=true`. -/
def buildRequests (tcs : TableCols) : List (String × MonitorRequest) :=
  tcs.map (fun p =>
    (p.1, { columns := p.2,
            select := { initial := true, insert := true, delete := true, modify := true } }))

/-- The validation loop of `MonitorTables` (client.go 400–412): every
caller-named table must be in the supported set, and its column list must be
empty; the first violation aborts with the corresponding error. -/
def validateTableCols (db : String) (tables : List String) :
    TableCols → Except OvnError Unit
  | [] => .ok ()
  | (table, columns) :: rest =>
    if table ∈ tables then
      if columns = [] then validateTableCols db tables rest
      else .error .columnsNotSupported
    else .error (.tableNotSupported table db)

/-- `MonitorTables` up to (and excluding) the `c.client.Monitor` RPC
(client.go 392–429): computes the schema subset, validates or defaults
`c.tableCols`, and builds the request set.  Returns the request set together
with the (possibly defaulted) `c.tableCols` the function leaves on the client. -/
def monitorTables (db : String) (nbOrder sbOrder schema : List String)
    (tableCols : TableCols) :
    Except OvnError (List (String × MonitorRequest) × TableCols) :=
  let tables := filterTablesFromSchema db nbOrder sbOrder schema
  if tableCols = [] then
    let tc := tables.map (fun t => (t, ([] : List String)))
    .ok (buildRequests tc, tc)
  else
    match validateTableCols db tables tableCols with
    | .error e => .error e
    | .ok _ => .ok (buildRequests tableCols, tableCols)

/-- The client state observable after a `connect` attempt: the connection
handle `c.client` (a `*libovsdb.OvsdbClient`, embedded as `Option Nat`), the
database identity, the stored `c.tableCols`, and whether `Disconnect` was
called during the attempt (the deferred teardown at client.go 300–305). -/
structure ConnState where
  db : String
  client : Option Nat
  tableCols : TableCols
  disconnected : Bool
  deriving Repr, DecidableEq

/-- `connect` (client.go 294–314).  `transport` is the outcome of
`libovsdb.Connect`; `rpcMonitor` the outcome of the `c.client.Monitor` call on
the built request set (its `TableUpdates` payload is irrelevant to these
claims and elided).  `populateCache` and `Register` cannot fail and contribute
no observable state here.  On an error after the transport opened, the
deferred function disconnects the transport and sets `c.client = nil`. -/
def connectModel (prev : Option Nat) (transport : Except String Nat)
    (db : String) (nbOrder sbOrder schema : List String) (tableCols : TableCols)
    (rpcMonitor : List (String × MonitorRequest) → Except String Unit) :
    ConnState × Except OvnError Unit :=
  match transport with
  | .error e =>
      ({ db := db, client := prev, tableCols := tableCols, disconnected := false },
       .error (.transportFailed e))
  | .ok h =>
    match monitorTables db nbOrder sbOrder schema tableCols with
    | .error e =>
        ({ db := db, client := none, tableCols := tableCols, disconnected := true },
         .error e)
    | .ok (reqs, tc) =>
      match rpcMonitor reqs with
      | .error m =>
          ({ db := db, client := none, tableCols := tc, disconnected := true },
           .error (.monitorFailed m))
      | .ok _ =>
          ({ db := db, client := some h, tableCols := tc, disconnected := false },
           .ok ())

/-- Outcome of `NewClient` (client.go 316–344): the returned `(Client, error)`
pair plus whether `connect` was attempted at all. -/
structure NewClientOutcome where
  result : Except OvnError ConnState
  connectAttempted : Bool
  deriving Repr

/-- The `switch db` validation block of `NewClient` (client.go 317–326): the
two fixed identities pass through, the empty string defaults to `DBNB`, and
anything else is rejected. -/
def resolveDb (cfgDb : String) : Except OvnError String :=
  if cfgDb = DBNB then .ok cfgDb
  else if cfgDb = DBSB then .ok cfgDb
  else if cfgDb = "" then .ok DBNB
  else .error (.invalidDbName cfgDb)

/-- `NewClient` (client.go 316–344): validate `cfg.Db` via `resolveDb`, then
run `connect`; a `connect` error is returned synchronously with no client
value, and a validation error is returned before any connection attempt. -/
def newClientModel (cfgDb : String) (transport : Except String Nat)
    (nbOrder sbOrder schema : List String) (tableCols : TableCols)
    (rpcMonitor : List (String × MonitorRequest) → Except String Unit) :
    NewClientOutcome :=
  match resolveDb cfgDb with
  | .error e => { result := .error e, connectAttempted := false }
  | .ok db =>
    let r := connectModel none transport db nbOrder sbOrder schema tableCols rpcMonitor
    match r.2 with
    | .error e => { result := .error e, connectAttempted := true }
    | .ok _ => { result := .ok r.1, connectAttempted := true }

/-- Outcome of a `Close()` call: either it returns (with its `error` result),
or it faults with a nil-pointer dereference. -/
inductive CloseOutcome where
  | faulted
  | returned (err : Option String)
  deriving Repr, DecidableEq

/-- `Close` (client.go 434–437): unconditionally calls `c.client.Disconnect()`
— a nil-pointer fault when the handle has been discarded — and returns `nil`. -/
def closeModel : Option Nat → CloseOutcome
  | none => .faulted
  | some _ => .returned none

/-- The reconnect ticker interval of `reconnect` (client.go 347):
`time.NewTicker(500 * time.Millisecond)`, in milliseconds. -/
def reconnectIntervalMs : Nat := 500

/-- The log lines the reconnect loop can emit per attempt (client.go 352–363):
a plain failure line (`retry < 10`), the one suppression-notice failure line
(`retry == 10`), nothing for later failures, and the final success line
carrying the retry count. -/
inductive ReconnLog where
  | fail
  | failSuppressNotice
  | success (retries : Nat)
  deriving Repr, DecidableEq

/-- What one failed attempt logs, as a function of the current `retry`
counter (client.go 353–359). -/
def failureLog (retry : Nat) : List ReconnLog :=
  if retry < 10 then [.fail]
  else if retry = 10 then [.failSuppressNotice]
  else []

/-- The reconnect loop body (client.go 350–366), driven by the sequence of
`connect` outcomes (`true` = success) delivered at the ticker firings.  Returns
the log lines emitted and `some r` when the loop stopped the ticker and
returned after `r` failed retries, or `none` when it is still running after
consuming all the given outcomes. -/
def reconnectRun : List Bool → Nat → List ReconnLog × Option Nat
  | [], _ => ([], none)
  | outcome :: rest, retry =>
    if outcome then ([.success retry], some retry)
    else
      let r := reconnectRun rest (retry + 1)
      (failureLog retry ++ r.1, r.2)

/-- The failure log lines accumulated over `k` consecutive failed attempts
starting at retry counter `retry`. -/
def failLogs (retry : Nat) : Nat → List ReconnLog
  | 0 => []
  | k + 1 => failureLog retry ++ failLogs (retry + 1) k

/-- Modelled from the spec: the bodies of `execute`/`executeR` (the Transaction
Executor) are declared in `client.go` (lines 724–730) but implemented outside
the provided sources.  Per the spec (§4.5), `ExecuteR` accepts zero or more
pre-built row operations; with zero operations it succeeds trivially with an
empty identifier list and sends no transaction; otherwise the operations are
submitted as one request to the remote store (`rpcTransact`).  The `Bool`
records whether a remote call was issued. -/
def executeRModel {α : Type} (rpcTransact : List α → Except String (List String))
    (cmds : List α) : Except String (List String) × Bool :=
  match cmds with
  | [] => (.ok [], false)
  | _ :: _ =>
    match rpcTransact cmds with
    | .error e => (.error e, true)
    | .ok uuids => (.ok uuids, true)

/-- Modelled from the spec: `Execute` is `ExecuteR` with the identifier list
discarded (spec §4.5). -/
def executeModel {α : Type} (rpcTransact : List α → Except String (List String))
    (cmds : List α) : Except String Unit × Bool :=
  let r := executeRModel rpcTransact cmds
  (r.1.map (fun _ => ()), r.2)

/-! ## Helper lemmas -/

lemma validateTableCols_ok_of_valid (db : String) (tables : List String) :
    ∀ tcs : TableCols, (∀ p ∈ tcs, p.1 ∈ tables ∧ p.2 = []) →
      validateTableCols db tables tcs = .ok ()
  | [], _ => rfl
  | (table, columns) :: rest, h => by
    have hhead := h (table, columns) (List.mem_cons_self _ _)
    have h1 : table ∈ tables := hhead.1
    have h2 : columns = [] := hhead.2
    subst h2
    simp only [validateTableCols, if_pos h1, if_pos rfl]
    exact validateTableCols_ok_of_valid db tables rest
      (fun p hp => h p (List.mem_cons_of_mem _ hp))

lemma validateTableCols_error_of_cols (db : String) (tables : List String) :
    ∀ (tcs : TableCols) (t : String) (cols : List String),
      (t, cols) ∈ tcs → cols ≠ [] →
      ∃ e, validateTableCols db tables tcs = .error e ∧ e.isConfigError = true
  | [], t, cols, hmem, _ => absurd hmem (List.not_mem_nil _)
  | (table, columns) :: rest, t, cols, hmem, hc => by
    rcases List.mem_cons.mp hmem with heq | htail
    · obtain ⟨ht, hcc⟩ := Prod.mk.injEq .. ▸ heq
      subst ht; subst hcc
      by_cases hin : t ∈ tables
      · refine ⟨.columnsNotSupported, ?_, rfl⟩
        simp only [validateTableCols, if_pos hin, if_neg hc]
      · refine ⟨.tableNotSupported t db, ?_, rfl⟩
        simp only [validateTableCols, if_neg hin]
    · by_cases hin : table ∈ tables
      · by_cases hce : columns = []
        · obtain ⟨e, he, hcfg⟩ :=
            validateTableCols_error_of_cols db tables rest t cols htail hc
          refine ⟨e, ?_, hcfg⟩
          simp only [validateTableCols, if_pos hin, if_pos hce]
          exact he
        · refine ⟨.columnsNotSupported, ?_, rfl⟩
          simp only [validateTableCols, if_pos hin, if_neg hce]
      · refine ⟨.tableNotSupported table db, ?_, rfl⟩
        simp only [validateTableCols, if_neg hin]

lemma validateTableCols_map_ok (db : String) (tables : List String)
    (l : List String) (h : ∀ t ∈ l, t ∈ tables) :
    validateTableCols db tables (l.map (fun t => (t, []))) = .ok () := by
  apply validateTableCols_ok_of_valid
  intro p hp
  obtain ⟨t, ht, rfl⟩ := List.mem_map.mp hp
  exact ⟨h t ht, rfl⟩

lemma monitorTables_ok_elim (db : String) (nbOrder sbOrder schema : List String)
    (tc : TableCols) (reqs : List (String × MonitorRequest)) (tc' : TableCols)
    (h : monitorTables db nbOrder sbOrder schema tc = .ok (reqs, tc')) :
    reqs = buildRequests tc' ∧
      ((tc = [] ∧
          tc' = (filterTablesFromSchema db nbOrder sbOrder schema).map
            (fun t => (t, []))) ∨
        (tc ≠ [] ∧ tc' = tc ∧
          validateTableCols db (filterTablesFromSchema db nbOrder sbOrder schema) tc
            = .ok ())) := by
  by_cases htc : tc = []
  · simp only [monitorTables, if_pos htc, Except.ok.injEq, Prod.mk.injEq] at h
    exact ⟨h.2 ▸ h.1.symm, Or.inl ⟨htc, h.2.symm⟩⟩
  · simp only [monitorTables, if_neg htc] at h
    cases hval : validateTableCols db (filterTablesFromSchema db nbOrder sbOrder schema) tc with
    | error e => rw [hval] at h; cases h
    | ok u =>
      cases u
      rw [hval] at h
      simp only [Except.ok.injEq, Prod.mk.injEq] at h
      obtain ⟨h1, h2⟩ := h
      subst h2
      exact ⟨h1.symm, Or.inr ⟨htc, rfl, rfl⟩⟩

/-! ## Claim theorems -/

/-- C1: for every valid restriction map naming only tables of the computed
schema subset, each with an empty column list, negotiation succeeds, the
monitored tables are exactly the names of the restriction map, and the computed
subset is the canonical ordered table list of the database identity with the
tables absent from the fetched schema silently dropped (order preserved). -/
theorem monitorTables_valid_restriction_ok (db : String)
    (nbOrder sbOrder schema : List String) (tcs : TableCols)
    (hne : tcs ≠ [])
    (hvalid : ∀ p ∈ tcs,
      p.1 ∈ filterTablesFromSchema db nbOrder sbOrder schema ∧ p.2 = []) :
    ∃ reqs, monitorTables db nbOrder sbOrder schema tcs = .ok (reqs, tcs) ∧
      reqs.map Prod.fst = tcs.map Prod.fst ∧
      (filterTablesFromSchema db nbOrder sbOrder schema).Sublist
        (if db = DBNB then nbOrder else sbOrder) ∧
      (∀ t, t ∈ filterTablesFromSchema db nbOrder sbOrder schema ↔
        (t ∈ (if db = DBNB then nbOrder else sbOrder) ∧ t ∈ schema)) := by
  have hv := validateTableCols_ok_of_valid db
    (filterTablesFromSchema db nbOrder sbOrder schema) tcs hvalid
  refine ⟨buildRequests tcs, ?_, ?_, ?_, ?_⟩
  · simp only [monitorTables, if_neg hne, hv]
  · simp [buildRequests, List.map_map, Function.comp]
  · exact List.filter_sublist _
  · intro t
    simp [filterTablesFromSchema, List.mem_filter]

/-- Witness for C1 at a concrete input: canonical list `["A", "B"]`, schema
exposing only `"A"`, restriction `{A: []}`. -/
theorem monitorTables_valid_restriction_ok_witness :
    (([("A", [])] : TableCols) ≠ [] ∧
      ∀ p ∈ ([("A", [])] : TableCols),
        p.1 ∈ filterTablesFromSchema DBNB ["A", "B"] [] ["A"] ∧ p.2 = []) ∧
    (∃ reqs,
      monitorTables DBNB ["A", "B"] [] ["A"] [("A", [])] = .ok (reqs, [("A", [])]) ∧
      reqs.map Prod.fst = ([("A", [])] : TableCols).map Prod.fst ∧
      (filterTablesFromSchema DBNB ["A", "B"] [] ["A"]).Sublist
        (if DBNB = DBNB then ["A", "B"] else []) ∧
      (∀ t, t ∈ filterTablesFromSchema DBNB ["A", "B"] [] ["A"] ↔
        (t ∈ (if DBNB = DBNB then ["A", "B"] else []) ∧ t ∈ ["A"]))) :=
  ⟨⟨by decide, by decide⟩,
    monitorTables_valid_restriction_ok DBNB ["A", "B"] [] ["A"] [("A", [])]
      (by decide) (by decide)⟩

/-- C2: any restriction map in which some table is mapped to a non-empty column
list makes negotiation fail with a configuration error, whether or not the
named tables are in the computed subset. -/
theorem monitorTables_nonempty_columns_error (db : String)
    (nbOrder sbOrder schema : List String) (tcs : TableCols)
    (t : String) (cols : List String)
    (hmem : (t, cols) ∈ tcs) (hcols : cols ≠ []) :
    ∃ e, monitorTables db nbOrder sbOrder schema tcs = .error e ∧
      e.isConfigError = true := by
  have hne : tcs ≠ [] := by
    intro h
    subst h
    exact List.not_mem_nil _ hmem
  obtain ⟨e, he, hcfg⟩ := validateTableCols_error_of_cols db
    (filterTablesFromSchema db nbOrder sbOrder schema) tcs t cols hmem hcols
  refine ⟨e, ?_, hcfg⟩
  simp only [monitorTables, if_neg hne, he]

/-- Witness for C2 at a concrete input: a valid table `"A"` with the non-empty
column restriction `["name"]`. -/
theorem monitorTables_nonempty_columns_error_witness :
    ((("A", ["name"]) ∈ ([("A", ["name"])] : TableCols)) ∧
      (["name"] : List String) ≠ []) ∧
    (∃ e, monitorTables DBNB ["A"] [] ["A"] [("A", ["name"])] = .error e ∧
      e.isConfigError = true) :=
  ⟨⟨by decide, by decide⟩,
    monitorTables_nonempty_columns_error DBNB ["A"] [] ["A"] [("A", ["name"])]
      "A" ["name"] (by decide) (by decide)⟩

/-- C3: the subscription request set is a pure function (`buildRequests`) of
the stored table/column selection, and re-running the negotiation on the state
the first run left behind (a reconnect) succeeds with the identical request
set and leaves the state unchanged. -/
theorem monitorRequests_deterministic_reconnect (db : String)
    (nbOrder sbOrder schema : List String) (tc : TableCols)
    (r1 : List (String × MonitorRequest)) (tc1 : TableCols)
    (h1 : monitorTables db nbOrder sbOrder schema tc = .ok (r1, tc1)) :
    r1 = buildRequests tc1 ∧
      monitorTables db nbOrder sbOrder schema tc1 = .ok (r1, tc1) := by
  obtain ⟨hreq, hcase⟩ := monitorTables_ok_elim db nbOrder sbOrder schema tc r1 tc1 h1
  refine ⟨hreq, ?_⟩
  rcases hcase with ⟨htc, htc1⟩ | ⟨htc, rfl, hval⟩
  · subst htc1
    by_cases h0 : (filterTablesFromSchema db nbOrder sbOrder schema).map
        (fun t => (t, ([] : List String))) = []
    · simp only [monitorTables, if_pos h0, hreq]
    · have hv := validateTableCols_map_ok db
        (filterTablesFromSchema db nbOrder sbOrder schema)
        (filterTablesFromSchema db nbOrder sbOrder schema) (fun t ht => ht)
      simp only [monitorTables, if_neg h0, hv, hreq]
  · simp only [monitorTables, if_neg htc, hval, hreq]

/-- Witness for C3 at a concrete input: no restriction supplied on first
connect; the reconnect re-negotiation returns the identical request set. -/
theorem monitorRequests_deterministic_reconnect_witness :
    monitorTables DBNB ["A"] [] ["A"] [] = .ok (buildRequests [("A", [])], [("A", [])]) ∧
    (buildRequests [("A", [])] = buildRequests [("A", [])] ∧
      monitorTables DBNB ["A"] [] ["A"] [("A", [])]
        = .ok (buildRequests [("A", [])], [("A", [])])) :=
  ⟨rfl, monitorRequests_deterministic_reconnect DBNB ["A"] [] ["A"] [] _ _
    (show monitorTables DBNB ["A"] [] ["A"] []
        = .ok (buildRequests [("A", [])], [("A", [])]) from rfl)⟩

/-- C4: every monitor request of a successful negotiation selects all four
change classes and carries its table's stored column list; when the caller
supplied no restriction, every request's column list is empty (all columns). -/
theorem monitorRequests_select_all_and_columns (db : String)
    (nbOrder sbOrder schema : List String) (tc : TableCols)
    (reqs : List (String × MonitorRequest)) (tc' : TableCols)
    (hok : monitorTables db nbOrder sbOrder schema tc = .ok (reqs, tc')) :
    reqs.map Prod.fst = tc'.map Prod.fst ∧
      ∀ p ∈ reqs,
        p.2.select.initial = true ∧ p.2.select.insert = true ∧
        p.2.select.delete = true ∧ p.2.select.modify = true ∧
        (p.1, p.2.columns) ∈ tc' ∧ (tc = [] → p.2.columns = []) := by
  obtain ⟨hreq, hcase⟩ := monitorTables_ok_elim db nbOrder sbOrder schema tc reqs tc' hok
  subst hreq
  constructor
  · simp [buildRequests, List.map_map, Function.comp]
  · intro p hp
    obtain ⟨q, hq, rfl⟩ := List.mem_map.mp hp
    refine ⟨rfl, rfl, rfl, rfl, ?_, ?_⟩
    · simpa using hq
    · intro htc
      rcases hcase with ⟨_, htc'⟩ | ⟨hne, _, _⟩
      · subst htc'
        obtain ⟨t, ht, rfl⟩ := List.mem_map.mp hq
        rfl
      · exact absurd htc hne

/-- Witness for C4 at a concrete input: no restriction supplied; the single
built request selects all change classes with an empty column list. -/
theorem monitorRequests_select_all_and_columns_witness :
    monitorTables DBNB ["A"] [] ["A"] [] = .ok (buildRequests [("A", [])], [("A", [])]) ∧
    ((buildRequests [("A", [])]).map Prod.fst = ([("A", [])] : TableCols).map Prod.fst ∧
      ∀ p ∈ buildRequests [("A", [])],
        p.2.select.initial = true ∧ p.2.select.insert = true ∧
        p.2.select.delete = true ∧ p.2.select.modify = true ∧
        (p.1, p.2.columns) ∈ ([("A", [])] : TableCols) ∧
        (([] : TableCols) = [] → p.2.columns = [])) :=
  ⟨rfl, monitorRequests_select_all_and_columns DBNB ["A"] [] ["A"] [] _ _
    (show monitorTables DBNB ["A"] [] ["A"] []
        = .ok (buildRequests [("A", [])], [("A", [])]) from rfl)⟩

lemma connectModel_post_open_error (prev : Option Nat) (h : Nat) (db : String)
    (nbOrder sbOrder schema : List String) (tc : TableCols)
    (rpcMonitor : List (String × MonitorRequest) → Except String Unit)
    (e : OvnError)
    (hfail :
      (connectModel prev (.ok h) db nbOrder sbOrder schema tc rpcMonitor).2
        = .error e) :
    (connectModel prev (.ok h) db nbOrder sbOrder schema tc rpcMonitor).1.client
        = none ∧
    (connectModel prev (.ok h) db nbOrder sbOrder schema tc rpcMonitor).1.disconnected
        = true := by
  cases hm : monitorTables db nbOrder sbOrder schema tc with
  | error e' => simp [connectModel, hm]
  | ok p =>
    obtain ⟨reqs, tc'⟩ := p
    cases hr : rpcMonitor reqs with
    | error m => simp [connectModel, hm, hr]
    | ok u => simp [connectModel, hm, hr] at hfail

/-- C5: when a step of `connect` after the transport opened fails (negotiation,
the monitor subscription RPC), the deferred teardown disconnects the transport
and discards the handle, and on a first connect `NewClient` returns the error
with no client value. -/
theorem connect_failure_teardown (h : Nat) (db : String)
    (nbOrder sbOrder schema : List String) (tc : TableCols)
    (rpcMonitor : List (String × MonitorRequest) → Except String Unit)
    (e : OvnError)
    (hdb : db = DBNB ∨ db = DBSB)
    (hfail :
      (connectModel none (.ok h) db nbOrder sbOrder schema tc rpcMonitor).2
        = .error e) :
    (connectModel none (.ok h) db nbOrder sbOrder schema tc rpcMonitor).1.client
        = none ∧
    (connectModel none (.ok h) db nbOrder sbOrder schema tc rpcMonitor).1.disconnected
        = true ∧
    newClientModel db (.ok h) nbOrder sbOrder schema tc rpcMonitor
      = { result := .error e, connectAttempted := true } := by
  obtain ⟨hc, hd⟩ :=
    connectModel_post_open_error none h db nbOrder sbOrder schema tc rpcMonitor e hfail
  refine ⟨hc, hd, ?_⟩
  have hdbE : resolveDb db = .ok db := by
    rcases hdb with rfl | rfl
    · rw [resolveDb, if_pos rfl]
    · rw [resolveDb, if_neg (by decide), if_pos rfl]
  simp only [newClientModel, hdbE, hfail]

/-- Witness for C5 at a concrete input: the restriction names table `"B"`,
which is absent from the computed subset, so negotiation fails after the
transport opened. -/
theorem connect_failure_teardown_witness :
    ((DBNB = DBNB ∨ DBNB = DBSB) ∧
      (connectModel none (.ok 0) DBNB ["A"] [] [] [("B", [])] (fun _ => .ok ())).2
        = .error (.tableNotSupported "B" DBNB)) ∧
    ((connectModel none (.ok 0) DBNB ["A"] [] [] [("B", [])] (fun _ => .ok ())).1.client
        = none ∧
      (connectModel none (.ok 0) DBNB ["A"] [] [] [("B", [])] (fun _ => .ok ())).1.disconnected
        = true ∧
      newClientModel DBNB (.ok 0) ["A"] [] [] [("B", [])] (fun _ => .ok ())
        = { result := .error (.tableNotSupported "B" DBNB), connectAttempted := true }) :=
  ⟨⟨Or.inl rfl, rfl⟩,
    connect_failure_teardown 0 DBNB ["A"] [] [] [("B", [])] (fun _ => .ok ())
      (.tableNotSupported "B" DBNB) (Or.inl rfl) rfl⟩

/-- C7: a database identity other than the two fixed identities (and not the
empty string) is rejected by `NewClient` synchronously, before any connection
attempt. -/
theorem newClient_invalid_db_rejected (cfgDb : String)
    (transport : Except String Nat) (nbOrder sbOrder schema : List String)
    (tc : TableCols)
    (rpcMonitor : List (String × MonitorRequest) → Except String Unit)
    (h1 : cfgDb ≠ DBNB) (h2 : cfgDb ≠ DBSB) (h3 : cfgDb ≠ "") :
    newClientModel cfgDb transport nbOrder sbOrder schema tc rpcMonitor
      = { result := .error (.invalidDbName cfgDb), connectAttempted := false } := by
  have hdbE : resolveDb cfgDb = .error (.invalidDbName cfgDb) := by
    rw [resolveDb, if_neg h1, if_neg h2, if_neg h3]
  simp only [newClientModel, hdbE]

/-- Witness for C7 at a concrete input: the identity `"bogus"`. -/
theorem newClient_invalid_db_rejected_witness :
    (("bogus" : String) ≠ DBNB ∧ ("bogus" : String) ≠ DBSB ∧
      ("bogus" : String) ≠ "") ∧
    newClientModel "bogus" (.ok 0) [] [] [] [] (fun _ => .ok ())
      = { result := .error (.invalidDbName "bogus"), connectAttempted := false } :=
  ⟨⟨by decide, by decide, by decide⟩,
    newClient_invalid_db_rejected "bogus" (.ok 0) [] [] [] [] (fun _ => .ok ())
      (by decide) (by decide) (by decide)⟩

/-- C9: an empty database identity in the configuration is not rejected:
`NewClient` behaves exactly as with the northbound identity, and proceeds to
the connection attempt. -/
theorem newClient_empty_db_defaults_nb (transport : Except String Nat)
    (nbOrder sbOrder schema : List String) (tc : TableCols)
    (rpcMonitor : List (String × MonitorRequest) → Except String Unit) :
    newClientModel "" transport nbOrder sbOrder schema tc rpcMonitor
      = newClientModel DBNB transport nbOrder sbOrder schema tc rpcMonitor ∧
    (newClientModel "" transport nbOrder sbOrder schema tc rpcMonitor).connectAttempted
      = true := by
  have h1 : resolveDb "" = .ok DBNB := by
    rw [resolveDb, if_neg (by decide), if_neg (by decide), if_pos rfl]
  have h2 : resolveDb DBNB = .ok DBNB := by
    rw [resolveDb, if_pos rfl]
  constructor
  · simp only [newClientModel, h1, h2]
  · simp only [newClientModel, h1]
    cases hres : (connectModel none transport DBNB nbOrder sbOrder schema tc rpcMonitor).2 with
    | error e => simp [hres]
    | ok u => simp [hres]

/-- C10: `Close` returns a `nil` error whenever the handle is live, and faults
(nil-pointer dereference) when the handle has been discarded — in particular on
the state a failed connect leaves behind. -/
theorem close_returns_nil_or_faults (hnd : Nat) (db : String)
    (nbOrder sbOrder schema : List String) (tc : TableCols)
    (rpcMonitor : List (String × MonitorRequest) → Except String Unit)
    (e : OvnError)
    (hfail :
      (connectModel none (.ok hnd) db nbOrder sbOrder schema tc rpcMonitor).2
        = .error e) :
    closeModel (some hnd) = .returned none ∧
    closeModel none = .faulted ∧
    closeModel
        (connectModel none (.ok hnd) db nbOrder sbOrder schema tc rpcMonitor).1.client
      = .faulted := by
  obtain ⟨hc, _⟩ :=
    connectModel_post_open_error none hnd db nbOrder sbOrder schema tc rpcMonitor e hfail
  refine ⟨rfl, rfl, ?_⟩
  rw [hc]
  rfl

/-- Witness for C10 at a concrete input: after the failed connect of the C5
scenario the handle is discarded and `Close` faults. -/
theorem close_returns_nil_or_faults_witness :
    (connectModel none (.ok 1) DBNB ["A"] [] [] [("B", [])] (fun _ => .ok ())).2
        = .error (.tableNotSupported "B" DBNB) ∧
    (closeModel (some 1) = .returned none ∧
      closeModel none = .faulted ∧
      closeModel
          (connectModel none (.ok 1) DBNB ["A"] [] [] [("B", [])] (fun _ => .ok ())).1.client
        = .faulted) :=
  ⟨rfl,
    close_returns_nil_or_faults 1 DBNB ["A"] [] [] [("B", [])] (fun _ => .ok ())
      (.tableNotSupported "B" DBNB) rfl⟩

lemma reconnectRun_all_fail : ∀ (k r : Nat),
    reconnectRun (List.replicate k false) r = (failLogs r k, none)
  | 0, _ => rfl
  | k + 1, r => by
    have ih := reconnectRun_all_fail k (r + 1)
    simp only [List.replicate_succ, reconnectRun, ih, failLogs]
    simp

lemma reconnectRun_first_success : ∀ (k r : Nat) (rest : List Bool),
    reconnectRun (List.replicate k false ++ true :: rest) r
      = (failLogs r k ++ [ReconnLog.success (r + k)], some (r + k))
  | 0, r, rest => by
    simp [reconnectRun, failLogs]
  | k + 1, r, rest => by
    have ih := reconnectRun_first_success k (r + 1) rest
    have harith : r + 1 + k = r + (k + 1) := by omega
    rw [List.replicate_succ, List.cons_append]
    simp only [reconnectRun, ih]
    simp [failLogs, List.append_assoc, harith]

lemma failLogs_count_fail : ∀ (k r : Nat),
    (failLogs r k).count ReconnLog.fail = min k (10 - r)
  | 0, r => by simp [failLogs]
  | k + 1, r => by
    have ih := failLogs_count_fail k (r + 1)
    simp only [failLogs, List.count_append, ih]
    unfold failureLog
    by_cases h1 : r < 10
    · rw [if_pos h1]
      have h0 : List.count ReconnLog.fail [ReconnLog.fail] = 1 := rfl
      rw [h0]
      omega
    · by_cases h2 : r = 10
      · rw [if_neg h1, if_pos h2]
        have h0 : List.count ReconnLog.fail [ReconnLog.failSuppressNotice] = 0 := rfl
        rw [h0]
        omega
      · rw [if_neg h1, if_neg h2]
        have h0 : List.count ReconnLog.fail ([] : List ReconnLog) = 0 := rfl
        rw [h0]
        omega

lemma failLogs_count_notice : ∀ (k r : Nat),
    (failLogs r k).count ReconnLog.failSuppressNotice
      = if r ≤ 10 ∧ 10 < r + k then 1 else 0
  | 0, r => by
    simp only [failLogs, List.count_nil]
    split_ifs with h
    · omega
    · rfl
  | k + 1, r => by
    have ih := failLogs_count_notice k (r + 1)
    simp only [failLogs, List.count_append, ih]
    unfold failureLog
    by_cases h1 : r < 10
    · rw [if_pos h1]
      have h0 : List.count ReconnLog.failSuppressNotice [ReconnLog.fail] = 0 := rfl
      rw [h0]
      split_ifs <;> omega
    · by_cases h2 : r = 10
      · rw [if_neg h1, if_pos h2]
        have h0 : List.count ReconnLog.failSuppressNotice
            [ReconnLog.failSuppressNotice] = 1 := rfl
        rw [h0]
        subst h2
        split_ifs <;> omega
      · rw [if_neg h1, if_neg h2]
        have h0 : List.count ReconnLog.failSuppressNotice ([] : List ReconnLog) = 0 := rfl
        rw [h0]
        split_ifs <;> omega

/-- C6: the reconnect loop runs on the fixed 500 ms ticker; on an all-failure
outcome sequence of any length it never exits (no retry ceiling); on the first
successful attempt it stops, having consumed exactly the failures before it,
and logs the retry count; each failed attempt before the success is logged —
one plain failure line per attempt up to the cap of 10, then the one
suppression-notice line, then nothing (silent retries). -/
theorem reconnect_loop_behavior :
    reconnectIntervalMs = 500 ∧
    (∀ k r : Nat, reconnectRun (List.replicate k false) r = (failLogs r k, none)) ∧
    (∀ (k : Nat) (rest : List Bool),
      reconnectRun (List.replicate k false ++ true :: rest) 0
        = (failLogs 0 k ++ [ReconnLog.success k], some k)) ∧
    (∀ k : Nat, (failLogs 0 k).count ReconnLog.fail = min k 10 ∧
      (failLogs 0 k).count ReconnLog.failSuppressNotice
        = if 10 < k then 1 else 0) := by
  refine ⟨rfl, fun k r => reconnectRun_all_fail k r, ?_, ?_⟩
  · intro k rest
    simpa using reconnectRun_first_success k 0 rest
  · intro k
    constructor
    · simpa using failLogs_count_fail k 0
    · rw [failLogs_count_notice k 0]
      split_ifs <;> omega

/-- C8: submitting zero operations to the Transaction Executor succeeds
immediately: the UUID-returning variant returns an empty identifier list, the
plain variant returns no error, and no transaction request is sent. -/
theorem execute_empty_ops_trivial
    (rpcTransact : List Nat → Except String (List String)) :
    executeRModel rpcTransact ([] : List Nat) = (.ok [], false) ∧
    executeModel rpcTransact ([] : List Nat) = (.ok (), false) :=
  ⟨rfl, rfl⟩
